import Mathlib

/-!
Shallow embedding of the memory-translation and memory-attribution core of
the VeeR-ISS RISC-V simulator: the virtual-memory translator (`VirtMem.cpp`:
`translate`, `pageTableWalk`, `setPageSize`, the `Pte*`/`Va*` bitfield
decoders) and the physical-memory-attribute manager (`PmaManager.hpp`:
`getPma`, `fracture`).

Machine words are modelled as `Nat` with explicit truncation (`% 2 ^ w`)
where the C++ bitfields truncate.  Fallible memory accesses are modelled by
`Option` / success flags.  Stateful code is modelled by explicit state
passing; memory writes performed by a walk are returned as an explicit list
of (address, value) pairs.
-/

namespace VeerVm

/-- Exception causes relevant to address translation (from `trapEnums.hpp`
usage in `VirtMem.cpp`). -/
inductive ExceptionCause where
  | NONE
  | INST_PAGE_FAULT
  | LOAD_PAGE_FAULT
  | STORE_PAGE_FAULT
deriving DecidableEq, Repr

/-- Privilege modes. -/
inductive PrivilegeMode where
  | User
  | Supervisor
  | Machine
deriving DecidableEq, Repr

/-- Translation modes supported by the walker.  `Sv57`/`Sv64` hit
`assert(0)` in the source (`VirtMem.cpp` line 97) and are not modelled. -/
inductive Mode where
  | Bare
  | Sv32
  | Sv39
  | Sv48
deriving DecidableEq, Repr

/-- `pageFaultType(read, write, exec)` from `VirtMem.cpp` lines 22-31:
INST_PAGE_FAULT if exec, else LOAD_PAGE_FAULT if read, else
STORE_PAGE_FAULT (the function's fall-through return). -/
def pageFaultType (read write exec : Bool) : ExceptionCause :=
  if exec then ExceptionCause.INST_PAGE_FAULT
  else if read then ExceptionCause.LOAD_PAGE_FAULT
  else ExceptionCause.STORE_PAGE_FAULT

/-- Extract the `w`-bit field of `x` starting at bit `lo` (C++ bitfield
decoding). -/
def bitsField (x lo w : Nat) : Nat := (x >>> lo) % 2 ^ w

/-- PTE `valid_` bit (bit 0, common to Pte32/Pte39/Pte48). -/
def pteValid (d : Nat) : Bool := d.testBit 0

/-- PTE `read_` bit (bit 1). -/
def pteR (d : Nat) : Bool := d.testBit 1

/-- PTE `write_` bit (bit 2). -/
def pteW (d : Nat) : Bool := d.testBit 2

/-- PTE `exec_` bit (bit 3). -/
def pteX (d : Nat) : Bool := d.testBit 3

/-- PTE `user_` bit (bit 4). -/
def pteU (d : Nat) : Bool := d.testBit 4

/-- PTE `global_` bit (bit 5). -/
def pteG (d : Nat) : Bool := d.testBit 5

/-- PTE `accessed_` bit (bit 6). -/
def pteA (d : Nat) : Bool := d.testBit 6

/-- PTE `dirty_` bit (bit 7). -/
def pteD (d : Nat) : Bool := d.testBit 7

/-- Mode-specific geometry of the walk: the data of the `PTE`/`VA` template
parameters of `VirtMem::pageTableWalk` (levels, PTE byte size, VA field
decoders, PTE ppn field decoders, pa placement shifts). -/
structure SvGeo where
  levels : Nat
  pteSize : Nat
  vpn : Nat → Nat → Nat
  vaOffset : Nat → Nat
  ppnField : Nat → Nat → Nat
  ppnFull : Nat → Nat
  paPpnShift : Nat → Nat

/-- `Va32::vpn(i)`: vpn0 = bits 21:12, vpn1 = bits 31:22 (after truncation
of the address to 32 bits, which the shifts absorb). -/
def Va32vpn (va : Nat) : Nat → Nat
  | 0 => bitsField va 12 10
  | 1 => bitsField va 22 10
  | _ => 0

/-- `Va39::vpn(i)`: three 9-bit fields above the 12-bit offset. -/
def Va39vpn (va : Nat) : Nat → Nat
  | 0 => bitsField va 12 9
  | 1 => bitsField va 21 9
  | 2 => bitsField va 30 9
  | _ => 0

/-- `Va48::vpn(i)` as in the source (`VirtMem.cpp` lines 592-610).  Note
`vpn3()` returns `bits_.vpn2_`, i.e. bits 38:30, not bits 47:39. -/
def Va48vpn (va : Nat) : Nat → Nat
  | 0 => bitsField va 12 9
  | 1 => bitsField va 21 9
  | 2 => bitsField va 30 9
  | 3 => bitsField va 30 9
  | _ => 0

/-- `Pte32` ppn fields: ppn0 = bits 19:10 (10 bits), ppn1 = bits 31:20
(12 bits). -/
def Pte32ppn (d : Nat) : Nat → Nat
  | 0 => bitsField d 10 10
  | 1 => bitsField d 20 12
  | _ => 0

/-- `Pte39` ppn fields: 9, 9, 26 bits starting at bit 10. -/
def Pte39ppn (d : Nat) : Nat → Nat
  | 0 => bitsField d 10 9
  | 1 => bitsField d 19 9
  | 2 => bitsField d 28 26
  | _ => 0

/-- `Pte48` ppn fields: 9, 9, 9, 17 bits starting at bit 10. -/
def Pte48ppn (d : Nat) : Nat → Nat
  | 0 => bitsField d 10 9
  | 1 => bitsField d 19 9
  | 2 => bitsField d 28 9
  | 3 => bitsField d 37 17
  | _ => 0

/-- Sv32 geometry (`Pte32`/`Va32`). -/
def geoSv32 : SvGeo where
  levels := 2
  pteSize := 4
  vpn := Va32vpn
  vaOffset := fun va => va % 4096
  ppnField := Pte32ppn
  ppnFull := fun d => Pte32ppn d 0 ||| (Pte32ppn d 1 <<< 10)
  paPpnShift := fun i => if i = 0 then 12 else if i = 1 then 22 else 0

/-- Sv39 geometry (`Pte39`/`Va39`). -/
def geoSv39 : SvGeo where
  levels := 3
  pteSize := 8
  vpn := Va39vpn
  vaOffset := fun va => va % 4096
  ppnField := Pte39ppn
  ppnFull := fun d => Pte39ppn d 0 ||| (Pte39ppn d 1 <<< 9) ||| (Pte39ppn d 2 <<< 18)
  paPpnShift := fun i => if i = 0 then 12 else if i = 1 then 21 else if i = 2 then 30 else 0

/-- Sv48 geometry (`Pte48`/`Va48`). -/
def geoSv48 : SvGeo where
  levels := 4
  pteSize := 8
  vpn := Va48vpn
  vaOffset := fun va => va % 4096
  ppnFull := fun d =>
    Pte48ppn d 0 ||| (Pte48ppn d 1 <<< 9) ||| (Pte48ppn d 2 <<< 18) ||| (Pte48ppn d 3 <<< 27)
  ppnField := Pte48ppn
  paPpnShift := fun i =>
    if i = 0 then 12 else if i = 1 then 21 else if i = 2 then 30 else if i = 3 then 39 else 0

/-- Backing memory interface (`Memory::read` / `Memory::write`): a read of
a PTE-sized value may fail (`none`), a write may fail (`writeOk = false`).
The walk never reads values it has written, so a pure read function plus a
write-success predicate captures the interface the walker consumes. -/
structure Mem where
  readFn : Nat → Option Nat
  writeOk : Nat → Bool

/-- TLB entry as populated by `VirtMem::pageTableWalk` lines 200-210. -/
structure TlbEntry where
  virtPageNum : Nat
  physPageNum : Nat
  asid : Nat
  valid : Bool
  global : Bool
  user : Bool
  read : Bool
  write : Bool
  exec : Bool
  accessed : Bool
  dirty : Bool
deriving DecidableEq, Repr

/-- Configuration state of `VirtMem` consumed by `translate` /
`pageTableWalk` / `setPageSize`. -/
structure VmCfg where
  mode : Mode
  pageSize : Nat
  pageBits : Nat
  pageMask : Nat
  asid : Nat
  pageTableRootPage : Nat
  execReadable : Bool
  supervisorOk : Bool
  faultOnFirstAccess : Bool
deriving DecidableEq, Repr

/-- Result of `VirtMem::pageTableWalk`: cause, the out-parameter `pa`
(modelled as 0 when the walk faults and leaves it unset), the TLB entry it
filled on success, and the list of (address, value) memory writes it
performed. -/
structure WalkOut where
  cause : ExceptionCause
  pa : Nat
  entry : Option TlbEntry
  writes : List (Nat × Nat)
deriving DecidableEq, Repr

/-- The fault result of a walk: `pageFaultType(read, write, exec)`, no TLB
entry, no memory writes. -/
def walkFault (read write exec : Bool) : WalkOut :=
  ⟨pageFaultType read write exec, 0, none, []⟩

/-- The walk loop of `VirtMem::pageTableWalk` (lines 126-151), recursing on
the level index `ii` (the C++ `while` loop decrements `ii`; `ii < 0` is the
base case).  Returns the leaf PTE data, the address it was read from (the
loop-local `pteAddr` of line 130), and the leaf level. -/
def walkLoop (g : SvGeo) (m : Mem) (pageSize va : Nat) :
    Nat → Nat → Option (Nat × Nat × Nat)
  | ii, root =>
    let pteAddr := root + g.vpn va ii * g.pteSize
    match m.readFn pteAddr with
    | none => none
    | some d =>
      if pteValid d = false ∨ (pteR d = false ∧ pteW d = true) then none
      else if pteR d = false ∧ pteX d = false then
        match ii with
        | 0 => none
        | ii2 + 1 => walkLoop g m pageSize va ii2 (g.ppnFull d * pageSize)
      else some (d, pteAddr, ii)

/-- `VirtMem::pageTableWalk` (lines 107-213).  The outer `pteAddr` declared
at line 123 is initialized to 0 and never reassigned: the `pteAddr` inside
the loop (line 130) is a distinct variable that shadows it, so the
A/D write-back at line 186 goes to address 0, not to the address the leaf
PTE was read from. -/
def pageTableWalk (g : SvGeo) (m : Mem) (cfg : VmCfg) (address : Nat)
    (privMode : PrivilegeMode) (read write exec : Bool) : WalkOut :=
  match walkLoop g m cfg.pageSize address (g.levels - 1)
      (cfg.pageTableRootPage * cfg.pageSize) with
  | none => walkFault read write exec
  | some (d, _leafAddr, ii) =>
    if privMode = PrivilegeMode.User ∧ pteU d = false then walkFault read write exec
    else if privMode = PrivilegeMode.Supervisor ∧ pteU d = true ∧ cfg.supervisorOk = false then
      walkFault read write exec
    else if (read && !(pteR d || (cfg.execReadable && pteX d))) || (write && !pteW d)
        || (exec && pteX d) then
      walkFault read write exec
    else if (List.range ii).any (fun j => g.ppnField d j ≠ 0) then
      walkFault read write exec
    else if !pteA d || (write && !pteD d) then
      if cfg.faultOnFirstAccess then walkFault read write exec
      else
        -- The write-back of line 186 uses the OUTER `pteAddr` of line 123,
        -- still 0: the loop-local `pteAddr` of line 130 shadows it.  The
        -- written value is the PTE with `accessed_` (bit 6) set and, on a
        -- write access, `dirty_` (bit 7) set.
        if m.writeOk 0 = false then walkFault read write exec
        else walkFinish g cfg address ((d ||| 64) ||| (if write then 128 else 0)) ii
          [(0, (d ||| 64) ||| (if write then 128 else 0))]
    else walkFinish g cfg address d ii []
where
  /-- Steps 9 and the TLB-entry fill of `pageTableWalk` (lines 190-212):
  compose `pa` from the VA offset, the low vpn fields (superpage
  pass-through) and the PTE ppn fields, then build the TLB entry from the
  (possibly A/D-updated) PTE bits. -/
  walkFinish (g : SvGeo) (cfg : VmCfg) (address d ii : Nat)
      (writes : List (Nat × Nat)) : WalkOut :=
    let pa0 := g.vaOffset address
    let pa1 := (List.range ii).foldl
      (fun acc j => acc ||| (g.vpn address j <<< g.paPpnShift j)) pa0
    let pa2 := ((List.range g.levels).drop ii).foldl
      (fun acc j => acc ||| (g.ppnField d j <<< g.paPpnShift j)) pa1
    let e : TlbEntry :=
      { virtPageNum := address >>> cfg.pageBits
        physPageNum := pa2 >>> cfg.pageBits
        asid := cfg.asid
        valid := true
        global := pteG d
        user := pteU d
        read := pteR d
        write := pteW d
        exec := pteX d
        accessed := pteA d
        dirty := pteD d }
    ⟨ExceptionCause.NONE, pa2, some e, writes⟩

/-- Modelled from the spec: the `Tlb` class (`tlb_.findEntry`) is not among
the provided source files.  Spec section 4.2: `find(vpn, asid)` returns an
entry that is valid, has matching vpn, and matching asid or the global
flag. -/
def tlbHitPred (vpn asid : Nat) (e : TlbEntry) : Bool :=
  e.valid && e.virtPageNum == vpn && (e.asid == asid || e.global)

/-- Modelled from the spec: TLB lookup returns the first matching entry
(see `tlbHitPred`). -/
def tlbFind (tlb : List TlbEntry) (vpn asid : Nat) : Option TlbEntry :=
  tlb.find? (tlbHitPred vpn asid)

/-- Modelled from the spec: `insert(entry)` installs the entry; the
eviction policy is implementation-choice (spec section 4.2), modelled as
placing the new entry at the front so it is found first. -/
def tlbInsert (tlb : List TlbEntry) (e : TlbEntry) : List TlbEntry := e :: tlb

/-- Update the first entry of the TLB satisfying `p` by `f` (the source
mutates the entry through the pointer returned by `findEntry`). -/
def tlbUpdateFirst (p : TlbEntry → Bool) (f : TlbEntry → TlbEntry) :
    List TlbEntry → List TlbEntry
  | [] => []
  | e :: rest => if p e then f e :: rest else e :: tlbUpdateFirst p f rest

/-- Result of `VirtMem::translate`: cause, out-parameter `pa` (0 when left
unset on a fault), the TLB after the call, and the backing-memory writes
performed. -/
structure XlateOut where
  cause : ExceptionCause
  pa : Nat
  tlb : List TlbEntry
  writes : List (Nat × Nat)
deriving DecidableEq, Repr

/-- The TLB-hit branch of `VirtMem::translate` (lines 47-68): permission
checks against the cached entry, the A/D policy applied to the TLB entry
only, and `pa = (physPageNum << pageBits) | (va & pageMask)`. -/
def tlbHitStep (cfg : VmCfg) (tlb : List TlbEntry) (entry : TlbEntry)
    (vpn va : Nat) (priv : PrivilegeMode) (read write exec : Bool) : XlateOut :=
  if priv = PrivilegeMode.User ∧ entry.user = false then
    ⟨pageFaultType read write exec, 0, tlb, []⟩
  else if priv = PrivilegeMode.Supervisor ∧ entry.user = true ∧ cfg.supervisorOk = false then
    ⟨pageFaultType read write exec, 0, tlb, []⟩
  else if (read && !(entry.read || (cfg.execReadable && entry.exec)))
      || (write && !entry.write) || (exec && !entry.exec) then
    ⟨pageFaultType read write exec, 0, tlb, []⟩
  else if !entry.accessed || (write && !entry.dirty) then
    if cfg.faultOnFirstAccess then ⟨pageFaultType read write exec, 0, tlb, []⟩
    else
      -- Lines 62-64 mutate the entry through the pointer returned by
      -- `findEntry`: set `accessed_` and, on a write access, `dirty_`.
      ⟨ExceptionCause.NONE,
        (entry.physPageNum <<< cfg.pageBits) ||| (va &&& cfg.pageMask),
        tlbUpdateFirst (tlbHitPred vpn cfg.asid)
          (fun e => { e with accessed := true, dirty := if write then true else e.dirty })
          tlb, []⟩
  else
    ⟨ExceptionCause.NONE,
      (entry.physPageNum <<< cfg.pageBits) ||| (va &&& cfg.pageMask), tlb, []⟩

/-- Wrap a walk result: on success insert the produced TLB entry (line
101), otherwise leave the TLB unchanged. -/
def walkToXlate (w : WalkOut) (tlb : List TlbEntry) : XlateOut :=
  match w.entry with
  | some e => if w.cause = ExceptionCause.NONE then ⟨w.cause, w.pa, tlbInsert tlb e, w.writes⟩
              else ⟨w.cause, w.pa, tlb, w.writes⟩
  | none => ⟨w.cause, w.pa, tlb, w.writes⟩

/-- The Sv39 canonical-address test of `translate` (lines 78-83): bits 63:39
must equal `0x1ffffff` when bit 38 is set and 0 otherwise.  Returns `true`
when the check FAILS (fault). -/
def sv39NonCanon (va : Nat) : Bool :=
  let mask : Nat := if (va >>> 38) &&& 1 ≠ 0 then 0x1ffffff else 0
  va >>> 39 ≠ mask

/-- The Sv48 canonical-address test of `translate` (lines 88-93): bits 63:48
must equal `0xffff` when bit 47 is set and 0 otherwise.  Returns `true`
when the check FAILS (fault). -/
def sv48NonCanon (va : Nat) : Bool :=
  let mask : Nat := if (va >>> 47) &&& 1 ≠ 0 then 0xffff else 0
  va >>> 48 ≠ mask

/-- `VirtMem::translate` (lines 34-104): Bare passthrough; TLB probe; on a
miss, the mode-specific canonical check and walk; successful walks are
cached in the TLB. -/
def translate (m : Mem) (cfg : VmCfg) (tlb : List TlbEntry) (va : Nat)
    (priv : PrivilegeMode) (read write exec : Bool) : XlateOut :=
  if cfg.mode = Mode.Bare then ⟨ExceptionCause.NONE, va, tlb, []⟩
  else
    match tlbFind tlb (va >>> cfg.pageBits) cfg.asid with
    | some entry => tlbHitStep cfg tlb entry (va >>> cfg.pageBits) va priv read write exec
    | none =>
      match cfg.mode with
      | Mode.Bare => ⟨ExceptionCause.NONE, va, tlb, []⟩
      | Mode.Sv32 =>
        walkToXlate (pageTableWalk geoSv32 m cfg va priv read write exec) tlb
      | Mode.Sv39 =>
        if sv39NonCanon va then ⟨pageFaultType read write exec, 0, tlb, []⟩
        else walkToXlate (pageTableWalk geoSv39 m cfg va priv read write exec) tlb
      | Mode.Sv48 =>
        if sv48NonCanon va then ⟨pageFaultType read write exec, 0, tlb, []⟩
        else walkToXlate (pageTableWalk geoSv48 m cfg va priv read write exec) tlb

/-- Floor of the base-2 logarithm (fuel-based so that it reduces in the
kernel): the value of `static_cast<unsigned>(std::log2(x))` at line 222
for the positive integer arguments that occur. -/
def ilog2Fuel : Nat → Nat → Nat
  | 0, _ => 0
  | fuel + 1, n => if n ≤ 1 then 0 else ilog2Fuel fuel (n / 2) + 1

/-- Floor of the base-2 logarithm. -/
def ilog2 (n : Nat) : Nat := ilog2Fuel n n

/-- `VirtMem::setPageSize` (lines 216-257).  The source computes `bits`
from the CURRENT `pageSize_` (line 222), not from the argument `size`; the
Sv48 branch falls through to `assert(0); return false` even when the size
is acceptable (no `return true` at line 253); Bare mode reaches the same
`assert(0); return false`.  Returns the C++ return value and the updated
configuration. -/
def setPageSize (cfg : VmCfg) (size : Nat) : Bool × VmCfg :=
  if size = 0 then (false, cfg)
  else
    let bits := ilog2 cfg.pageSize
    let p2Size := 2 ^ bits
    if size ≠ p2Size then (false, cfg)
    else
      match cfg.mode with
      | Mode.Sv32 =>
        if size ≠ 4096 then (false, cfg)
        else (true, { cfg with pageBits := bits, pageSize := size })
      | Mode.Sv39 =>
        if size ≠ 4096 ∧ size ≠ 2 * 1024 * 1024 ∧ size ≠ 1024 * 1024 * 1024 then (false, cfg)
        else (true, { cfg with pageBits := bits, pageSize := size })
      | Mode.Sv48 =>
        if size ≠ 4096 ∧ size ≠ 2 * 1024 * 1024 ∧ size ≠ 1024 * 1024 * 1024
            ∧ size ≠ 512 * 1024 * 1024 * 1024 then (false, cfg)
        else (false, { cfg with pageBits := bits, pageSize := size })
      | Mode.Bare => (false, cfg)

/-- Physical memory attribute (`Pma` of `PmaManager.hpp`): the 16-bit
attribute word and the private sub-page ("word granularity") flag. -/
structure Pma where
  attrib : Nat
  word : Bool
deriving DecidableEq, Repr

/-- `Pma()` default: attribute `None` (0), page granularity. -/
def pmaUnmapped : Pma := ⟨0, false⟩

/-- State of `PmaManager`: the dense page-indexed attribute vector, the
sparse word-indexed map (association list modelling the
`unordered_map`), and the page geometry. -/
structure PmaMgr where
  pagePmas : List Pma
  wordPmas : List (Nat × Pma)
  pageSize : Nat
  pageShift : Nat
deriving DecidableEq, Repr

/-- Insert or overwrite a key in the association list modelling
`unordered_map::operator[]` assignment. -/
def mapInsert (k : Nat) (v : Pma) : List (Nat × Pma) → List (Nat × Pma)
  | [] => [(k, v)]
  | (k2, v2) :: rest => if k2 = k then (k, v) :: rest else (k2, v2) :: mapInsert k v rest

/-- `PmaManager::getPma` (`PmaManager.hpp` lines 137-149).  Out-of-range
page index returns the default `Pma()`.  When the page's sub-page flag is
set the source calls `wordPmas_.at(addr >> 2)`, which THROWS
`std::out_of_range` when the key is absent; the throw is modelled as
`none`, a normal return as `some`. -/
def getPma (st : PmaMgr) (addr : Nat) : Option Pma :=
  if h : addr >>> st.pageShift < st.pagePmas.length then
    if (st.pagePmas.get ⟨addr >>> st.pageShift, h⟩).word then
      st.wordPmas.lookup (addr >>> 2)
    else some (st.pagePmas.get ⟨addr >>> st.pageShift, h⟩)
  else some pmaUnmapped

/-- `PmaManager::fracture` (`PmaManager.hpp` lines 198-210).  `Pma pma =
pagePmas_.at(pageIx)` COPIES the entry; `pma.word_ = true` (line 204) sets
the flag on that local copy only, so `pagePmas_` is never updated; the
copy (with its flag set) is then stored into `wordPmas_` for every word of
the page.  (`pagePmas_.at` throws on an out-of-range index; that case is
modelled as leaving the state unchanged and is outside the in-range claims
considered here.) -/
def fracture (st : PmaMgr) (addr : Nat) : PmaMgr :=
  let pageIx := addr >>> st.pageShift
  match st.pagePmas.get? pageIx with
  | none => st
  | some pma =>
    if pma.word then st
    else
      let pma2 : Pma := { pma with word := true }
      let words := st.pageSize / 4
      let wordIx0 := (pageIx * st.pageSize) >>> 2
      { st with wordPmas :=
          (List.range words).foldl (fun mp i => mapInsert (wordIx0 + i) pma2 mp) st.wordPmas }

/-- Claim-side canonicity for Sv39: bits 63:39 of the (64-bit) virtual
address all equal bit 38. -/
def sv39CanonSpec (va : Nat) : Prop :=
  ∀ i, i < 64 → 39 ≤ i → va.testBit i = va.testBit 38

instance (va : Nat) : Decidable (sv39CanonSpec va) := by
  unfold sv39CanonSpec; infer_instance

/-- Claim-side canonicity for Sv48: bits 63:48 of the (64-bit) virtual
address all equal bit 47. -/
def sv48CanonSpec (va : Nat) : Prop :=
  ∀ i, i < 64 → 48 ≤ i → va.testBit i = va.testBit 47

instance (va : Nat) : Decidable (sv48CanonSpec va) := by
  unfold sv48CanonSpec; infer_instance

/-- A standard Sv32 configuration: 4 KiB pages, page-table root at
physical page 1, asid 0, all control flags clear. -/
def cfgSv32 : VmCfg := ⟨Mode.Sv32, 4096, 12, 4095, 0, 1, false, false, false⟩

/-- Same configuration in Sv39 mode. -/
def cfgSv39 : VmCfg := { cfgSv32 with mode := Mode.Sv39 }

/-- An Sv48 configuration whose current page size is 2 MiB. -/
def cfgSv48p2M : VmCfg := ⟨Mode.Sv48, 2097152, 21, 2097151, 0, 1, false, false, false⟩

/-- Memory holding at address 4096 (the root-level PTE slot for va 0 with
root page 1) a leaf PTE with V=R=U=A=1, X=W=D=0 (value 83). -/
def mX0 : Mem := ⟨fun a => if a = 4096 then some 83 else none, fun _ => true⟩

/-- Memory holding at address 4096 a leaf PTE with V=R=X=U=A=1, W=D=0
(value 91). -/
def mX1 : Mem := ⟨fun a => if a = 4096 then some 91 else none, fun _ => true⟩

/-- Memory holding at address 4096 a leaf PTE with V=R=W=U=1, A=D=0
(value 23); all writes succeed. -/
def mAD : Mem := ⟨fun a => if a = 4096 then some 23 else none, fun _ => true⟩

/-- Memory on which every read fails and every write succeeds. -/
def memNone : Mem := ⟨fun _ => none, fun _ => true⟩

/-- A TLB entry for virtual page 5 mapped to physical page 7 with full
permissions, accessed and dirty. -/
def ent0 : TlbEntry := ⟨5, 7, 0, true, false, true, true, true, true, true, true⟩

/-- A one-entry TLB holding `ent0`. -/
def tlb0 : List TlbEntry := [ent0]

/-- PMAM state with a single 16-byte page whose attribute has the sub-page
flag set while `wordPmas` is empty. -/
def stA : PmaMgr := ⟨[⟨31, true⟩], [], 16, 4⟩

/-- PMAM state with a single 16-byte page carrying attribute 31 (Default)
at page granularity, not yet fractured. -/
def stB : PmaMgr := ⟨[⟨31, false⟩], [], 16, 4⟩

/-- The cause of a `walkFinish` result is always NONE. -/
theorem walkFinish_cause (g : SvGeo) (cfg : VmCfg) (a d ii : Nat)
    (ws : List (Nat × Nat)) :
    (pageTableWalk.walkFinish g cfg a d ii ws).cause = ExceptionCause.NONE := rfl

/-- Every unsuccessful outcome of `pageTableWalk` is
`pageFaultType read write exec`: each fault return in the source is a call
to that function with the walk's own access flags. -/
theorem pageTableWalk_cause (g : SvGeo) (m : Mem) (cfg : VmCfg) (a : Nat)
    (priv : PrivilegeMode) (r w x : Bool) :
    (pageTableWalk g m cfg a priv r w x).cause = ExceptionCause.NONE ∨
    (pageTableWalk g m cfg a priv r w x).cause = pageFaultType r w x := by
  unfold pageTableWalk
  split
  · exact Or.inr rfl
  · split_ifs <;> simp [walkFault, walkFinish_cause]

/-- The cause of a TLB-hit step is NONE or `pageFaultType read write exec`,
and a TLB hit performs no backing-memory writes. -/
theorem tlbHitStep_cause_writes (cfg : VmCfg) (tlb : List TlbEntry)
    (e : TlbEntry) (vpn va : Nat) (priv : PrivilegeMode) (r w x : Bool) :
    ((tlbHitStep cfg tlb e vpn va priv r w x).cause = ExceptionCause.NONE ∨
     (tlbHitStep cfg tlb e vpn va priv r w x).cause = pageFaultType r w x) ∧
    (tlbHitStep cfg tlb e vpn va priv r w x).writes = [] := by
  unfold tlbHitStep
  repeat' split
  all_goals simp

/-- `walkToXlate` preserves the walk's cause. -/
theorem walkToXlate_cause (wo : WalkOut) (tlb : List TlbEntry) :
    (walkToXlate wo tlb).cause = wo.cause := by
  unfold walkToXlate
  repeat' split
  all_goals simp

/-- Every unsuccessful outcome of `translate` is
`pageFaultType read write exec`. -/
theorem translate_cause (m : Mem) (cfg : VmCfg) (tlb : List TlbEntry)
    (va : Nat) (priv : PrivilegeMode) (r w x : Bool) :
    (translate m cfg tlb va priv r w x).cause = ExceptionCause.NONE ∨
    (translate m cfg tlb va priv r w x).cause = pageFaultType r w x := by
  unfold translate
  split
  · exact Or.inl rfl
  · split
    · exact (tlbHitStep_cause_writes _ _ _ _ _ _ _ _ _).1
    · split
      · exact Or.inl rfl
      · rw [walkToXlate_cause]; exact pageTableWalk_cause _ _ _ _ _ _ _ _
      · split
        · exact Or.inr rfl
        · rw [walkToXlate_cause]; exact pageTableWalk_cause _ _ _ _ _ _ _ _
      · split
        · exact Or.inr rfl
        · rw [walkToXlate_cause]; exact pageTableWalk_cause _ _ _ _ _ _ _ _

/-- For a 64-bit value, the shift-and-mask sign-extension test of
`translate` (compare `va >>> lo` with an all-ones or all-zero mask chosen
by bit `lo1 = lo - 1`) passes exactly when every bit in `[lo, 63]` equals
bit `lo1`. -/
theorem canon_shift_iff (va lo1 lo : Nat) (hlo : lo = lo1 + 1) (hva : va < 2 ^ 64) :
    (va >>> lo = if (va >>> lo1) &&& 1 ≠ 0 then 2 ^ (64 - lo) - 1 else 0)
      ↔ ∀ i, i < 64 → lo ≤ i → va.testBit i = va.testBit lo1 := by
  have hbit : ((va >>> lo1) &&& 1 ≠ 0) ↔ va.testBit lo1 = true := by
    rw [Nat.and_one_is_mod, Nat.shiftRight_eq_div_pow, Nat.testBit_to_div_mod]
    rcases Nat.mod_two_eq_zero_or_one (va / 2 ^ lo1) with h | h <;> simp [h]
  have hhigh : ∀ j, ¬ j < 64 - lo → va.testBit (lo + j) = false := by
    intro j hj
    exact Nat.testBit_lt_two_pow
      (lt_of_lt_of_le hva (Nat.pow_le_pow_right (by norm_num) (by omega)))
  by_cases hb : va.testBit lo1 = true
  · rw [if_pos (hbit.mpr hb)]
    constructor
    · intro heq i hi64 hloi
      have hrw : va.testBit i = (va >>> lo).testBit (i - lo) := by
        rw [Nat.testBit_shiftRight]
        congr 1
        omega
      rw [hrw, heq, Nat.testBit_two_pow_sub_one, hb]
      simp only [decide_eq_true_eq]
      omega
    · intro hall
      apply Nat.eq_of_testBit_eq
      intro j
      rw [Nat.testBit_shiftRight, Nat.testBit_two_pow_sub_one]
      by_cases hj : j < 64 - lo
      · rw [hall (lo + j) (by omega) (by omega), hb]
        simp [hj]
      · rw [hhigh j hj]
        simp [hj]
  · rw [if_neg (fun hc => hb (hbit.mp hc))]
    have hb2 : va.testBit lo1 = false := by
      cases h : va.testBit lo1
      · rfl
      · exact absurd h hb
    constructor
    · intro heq i hi64 hloi
      have hrw : va.testBit i = (va >>> lo).testBit (i - lo) := by
        rw [Nat.testBit_shiftRight]
        congr 1
        omega
      rw [hrw, heq, Nat.zero_testBit, hb2]
    · intro hall
      apply Nat.eq_of_testBit_eq
      intro j
      rw [Nat.testBit_shiftRight, Nat.zero_testBit]
      by_cases hj : j < 64 - lo
      · rw [hall (lo + j) (by omega) (by omega), hb2]
      · exact hhigh j hj

/-- The Sv39 code check `sv39NonCanon` fires exactly on the virtual
addresses whose bits 63:39 are not all equal to bit 38. -/
theorem sv39NonCanon_iff (va : Nat) (hva : va < 2 ^ 64) :
    sv39NonCanon va = true ↔ ¬ sv39CanonSpec va := by
  have h0 : (0x1ffffff : Nat) = 2 ^ (64 - 39) - 1 := by norm_num
  have h := canon_shift_iff va 38 39 rfl hva
  unfold sv39NonCanon sv39CanonSpec
  rw [h0]
  simp only [ne_eq, decide_eq_true_eq]
  constructor
  · intro hne hall
    exact hne (h.mpr hall)
  · intro hns
    intro heq
    exact hns (h.mp heq)

/-- The Sv48 code check `sv48NonCanon` fires exactly on the virtual
addresses whose bits 63:48 are not all equal to bit 47. -/
theorem sv48NonCanon_iff (va : Nat) (hva : va < 2 ^ 64) :
    sv48NonCanon va = true ↔ ¬ sv48CanonSpec va := by
  have h0 : (0xffff : Nat) = 2 ^ (64 - 48) - 1 := by norm_num
  have h := canon_shift_iff va 47 48 rfl hva
  unfold sv48NonCanon sv48CanonSpec
  rw [h0]
  simp only [ne_eq, decide_eq_true_eq]
  constructor
  · intro hne hall
    exact hne (h.mpr hall)
  · intro hns
    intro heq
    exact hns (h.mp heq)

/-- C1: at a leaf PTE with privilege checks passed, the source faults an
execute access when the exec bit is SET (value 91: V=R=X=U=A=1) and passes
it when the exec bit is CLEAR (value 83: V=R=U=A=1, X=0) — the opposite of
the claimed behavior, because line 162 of `VirtMem.cpp` tests
`(exec and pte.exec())` instead of `(exec and not pte.exec())`. -/
theorem exec_permission_check_inverted :
    (pageTableWalk geoSv32 mX1 cfgSv32 0 PrivilegeMode.User false false true).cause
        = ExceptionCause.INST_PAGE_FAULT ∧
    (pageTableWalk geoSv32 mX0 cfgSv32 0 PrivilegeMode.User false false true).cause
        = ExceptionCause.NONE := by decide

/-- C2: on a write access to a leaf PTE with A=D=0 (value 23 read from
physical address 4096) the walk succeeds and writes the updated PTE
(value 215 = 23 with bits 6 and 7 set) — but to physical address 0, not to
address 4096 where the leaf PTE was read, because the `pteAddr` of line
130 shadows the outer `pteAddr` of line 123 used by the write-back at line
186. -/
theorem ad_writeback_goes_to_address_zero :
    (pageTableWalk geoSv32 mAD cfgSv32 0 PrivilegeMode.User false true false).cause
        = ExceptionCause.NONE ∧
    (pageTableWalk geoSv32 mAD cfgSv32 0 PrivilegeMode.User false true false).writes
        = [(0, 215)] ∧
    walkLoop geoSv32 mAD 4096 0 1 4096 = some (23, 4096, 1) := by decide

/-- C3: a successful execute-access walk over a leaf with R=1, X=0
(possible only because of the inverted check of line 162) installs a TLB
entry with exec=false; repeating the very same translate then hits the TLB
and faults with INST_PAGE_FAULT, so the TLB hit does not reproduce the
walk's fault classification. -/
theorem tlb_hit_disagrees_with_walk :
    (translate mX0 cfgSv32 [] 0 PrivilegeMode.User false false true).cause
        = ExceptionCause.NONE ∧
    (translate mX0 cfgSv32
        (translate mX0 cfgSv32 [] 0 PrivilegeMode.User false false true).tlb
        0 PrivilegeMode.User false false true).cause
        = ExceptionCause.INST_PAGE_FAULT := by decide

/-- C4: `setPageSize` computes `bits` from the current `pageSize_` (line
222), so a mode-permitted 2 MiB request is rejected in Sv39 mode whenever
the current page size is 4096; and in Sv48 mode a permitted size falls
through to `assert(0); return false` (no `return true` in that branch), so
it is never accepted. -/
theorem setPageSize_rejects_permitted_sizes :
    setPageSize cfgSv39 2097152 = (false, cfgSv39) ∧
    (setPageSize cfgSv48p2M 2097152).1 = false := by decide

/-- C5 counterexample: with the page's sub-page flag set and `wordPmas`
empty, `getPma` evaluates `wordPmas_.at(addr >> 2)` on an absent key,
which throws (modelled as `none`) instead of returning the unmapped
Pma. -/
theorem getPma_throws_on_absent_word :
    getPma stA 0 = none ∧ getPma stA 0 ≠ some pmaUnmapped := by decide

/-- C5 amended: `getPma` returns the unmapped Pma for an out-of-range page
index; for an in-range page it returns the page entry when the sub-page
flag is clear, and the result of the (throwing-on-absence) word-map lookup
when the flag is set. -/
theorem getPma_cases (st : PmaMgr) (addr : Nat) :
    (st.pagePmas.length ≤ addr >>> st.pageShift → getPma st addr = some pmaUnmapped) ∧
    (∀ h : addr >>> st.pageShift < st.pagePmas.length,
      ((st.pagePmas.get ⟨addr >>> st.pageShift, h⟩).word = false →
        getPma st addr = some (st.pagePmas.get ⟨addr >>> st.pageShift, h⟩)) ∧
      ((st.pagePmas.get ⟨addr >>> st.pageShift, h⟩).word = true →
        getPma st addr = st.wordPmas.lookup (addr >>> 2))) := by
  refine ⟨?_, ?_⟩
  · intro hout
    unfold getPma
    rw [dif_neg (by omega)]
  · intro h
    refine ⟨?_, ?_⟩
    · intro hw
      unfold getPma
      rw [dif_pos h, if_neg (by rw [show (st.pagePmas.get ⟨addr >>> st.pageShift, h⟩).word = false from hw]; exact Bool.false_ne_true)]
    · intro hw
      unfold getPma
      rw [dif_pos h, if_pos (by exact hw)]

/-- C5 amended, witness: on the concrete fractured-flag state `stA`,
`getPma` at address 0 is the word-map lookup. -/
theorem getPma_cases_witness :
    getPma stA 0 = stA.wordPmas.lookup 0 :=
  ((getPma_cases stA 0).2 (by decide)).2 (by decide)

/-- C6: `fracture` sets the sub-page flag only on a local copy of the page
attribute: after `fracture stB 0` the page entry still has `word = false`
(so `getPma` keeps returning the per-page entry) even though `wordPmas`
now holds per-word copies (with the flag set) for the page. -/
theorem fracture_updates_only_local_copy :
    (fracture stB 0).pagePmas.get? 0 = some ⟨31, false⟩ ∧
    (fracture stB 0).wordPmas.lookup 0 = some ⟨31, true⟩ ∧
    (fracture stB 0).wordPmas.lookup 3 = some ⟨31, true⟩ ∧
    getPma (fracture stB 0) 0 = some ⟨31, false⟩ := by decide

/-- C7: on a TLB miss, an Sv39 virtual address whose bits 63:39 are not
all equal to bit 38 (and an Sv48 one whose bits 63:48 are not all equal to
bit 47) makes `translate` return the access-kind page fault with the TLB
unchanged and no memory writes, i.e. without walking the tables; Bare mode
translates every address to itself, and Sv32 dispatches straight to the
walk with no canonical check. -/
theorem canonical_check_by_mode (m : Mem) (cfg : VmCfg) (tlb : List TlbEntry)
    (va : Nat) (priv : PrivilegeMode) (r w x : Bool)
    (hva : va < 2 ^ 64)
    (hmiss : tlbFind tlb (va >>> cfg.pageBits) cfg.asid = none) :
    (cfg.mode = Mode.Sv39 → ¬ sv39CanonSpec va →
      translate m cfg tlb va priv r w x = ⟨pageFaultType r w x, 0, tlb, []⟩) ∧
    (cfg.mode = Mode.Sv48 → ¬ sv48CanonSpec va →
      translate m cfg tlb va priv r w x = ⟨pageFaultType r w x, 0, tlb, []⟩) ∧
    (cfg.mode = Mode.Bare →
      translate m cfg tlb va priv r w x = ⟨ExceptionCause.NONE, va, tlb, []⟩) ∧
    (cfg.mode = Mode.Sv32 →
      translate m cfg tlb va priv r w x =
        walkToXlate (pageTableWalk geoSv32 m cfg va priv r w x) tlb) := by
  refine ⟨?_, ?_, ?_, ?_⟩
  · intro hmode hnc
    have hb : sv39NonCanon va = true := (sv39NonCanon_iff va hva).mpr hnc
    simp [translate, hmode, hmiss, hb]
  · intro hmode hnc
    have hb : sv48NonCanon va = true := (sv48NonCanon_iff va hva).mpr hnc
    simp [translate, hmode, hmiss, hb]
  · intro hmode
    simp [translate, hmode]
  · intro hmode
    simp [translate, hmode, hmiss]

/-- C7 witness: the concrete Sv39 address `2^63` (bit 63 set, bit 38
clear) faults with LOAD_PAGE_FAULT on a read, leaving the (empty) TLB
unchanged and writing nothing, for a memory on which every read fails. -/
theorem canonical_check_by_mode_witness :
    translate memNone cfgSv39 [] (2 ^ 63) PrivilegeMode.User true false false
      = ⟨ExceptionCause.LOAD_PAGE_FAULT, 0, [], []⟩ :=
  (canonical_check_by_mode memNone cfgSv39 [] (2 ^ 63) PrivilegeMode.User
    true false false (by norm_num) (by decide)).1 (by decide) (by decide)

/-- C8: `Va48::vpn3()` returns the `vpn2_` field (bits 38:30), so at
`va = 2^39` — whose vpn3 field (bits 47:39) is 1 and whose vpn2 field is
0 — the decoder returns 0 for `vpn(3)`, equal to `vpn(2)` although the
two bit fields differ. -/
theorem va48_vpn3_returns_vpn2_field :
    Va48vpn (2 ^ 39) 3 = 0 ∧
    bitsField (2 ^ 39) 39 9 = 1 ∧
    Va48vpn (2 ^ 39) 3 = Va48vpn (2 ^ 39) 2 := by decide

/-- C9: with exactly one of read/write/exec requested, every unsuccessful
`translate` result is the page fault matching the access kind —
INST_PAGE_FAULT for exec, LOAD_PAGE_FAULT for read, STORE_PAGE_FAULT for
write — independent of which step of the probe or walk failed. -/
theorem fault_kind_matches_access (m : Mem) (cfg : VmCfg) (tlb : List TlbEntry)
    (va : Nat) (priv : PrivilegeMode) (r w x : Bool)
    (hone : (r = true ∧ w = false ∧ x = false) ∨ (r = false ∧ w = true ∧ x = false)
      ∨ (r = false ∧ w = false ∧ x = true))
    (hf : (translate m cfg tlb va priv r w x).cause ≠ ExceptionCause.NONE) :
    (x = true → (translate m cfg tlb va priv r w x).cause = ExceptionCause.INST_PAGE_FAULT) ∧
    (r = true → (translate m cfg tlb va priv r w x).cause = ExceptionCause.LOAD_PAGE_FAULT) ∧
    (w = true → (translate m cfg tlb va priv r w x).cause = ExceptionCause.STORE_PAGE_FAULT) := by
  rcases translate_cause m cfg tlb va priv r w x with hc | hc
  · exact absurd hc hf
  · rcases hone with ⟨hr, hw, hx⟩ | ⟨hr, hw, hx⟩ | ⟨hr, hw, hx⟩ <;>
      subst hr <;> subst hw <;> subst hx <;>
      simp [hc, pageFaultType]

/-- C9 witness: a read access on a memory where every PTE read fails
yields LOAD_PAGE_FAULT. -/
theorem fault_kind_matches_access_witness :
    (translate memNone cfgSv32 [] 0 PrivilegeMode.User true false false).cause
      = ExceptionCause.LOAD_PAGE_FAULT :=
  (fault_kind_matches_access memNone cfgSv32 [] 0 PrivilegeMode.User true false false
    (Or.inl ⟨rfl, rfl, rfl⟩) (by decide)).2.1 rfl

/-- C10: on a TLB hit, `translate` performs no backing-memory access: its
result is identical for any two memories and its write list is empty, so
an accessed/dirty update on a hit changes only the TLB entry and the
in-memory PTE is never written back. -/
theorem tlb_hit_touches_no_memory (m m2 : Mem) (cfg : VmCfg)
    (tlb : List TlbEntry) (va : Nat) (priv : PrivilegeMode) (r w x : Bool)
    (entry : TlbEntry)
    (h : tlbFind tlb (va >>> cfg.pageBits) cfg.asid = some entry) :
    (translate m cfg tlb va priv r w x).writes = [] ∧
    translate m cfg tlb va priv r w x = translate m2 cfg tlb va priv r w x := by
  by_cases hb : cfg.mode = Mode.Bare
  · simp [translate, hb]
  · constructor
    · simp only [translate, if_neg hb, h]
      exact (tlbHitStep_cause_writes cfg tlb entry (va >>> cfg.pageBits) va priv r w x).2
    · simp only [translate, if_neg hb, h]

/-- C10 witness: a hit on the concrete entry `ent0` (virtual page 5) with
a non-accessed... -/
theorem tlb_hit_touches_no_memory_witness :
    (translate memNone cfgSv32 tlb0 20480 PrivilegeMode.User true false false).writes = [] ∧
    translate memNone cfgSv32 tlb0 20480 PrivilegeMode.User true false false
      = translate mX0 cfgSv32 tlb0 20480 PrivilegeMode.User true false false :=
  tlb_hit_touches_no_memory memNone mX0 cfgSv32 tlb0 20480 PrivilegeMode.User
    true false false ent0 (by decide)

end VeerVm
